import Mathlib

/-!
Shallow embedding of the JOS user-level IPC library (src/lib/ipc.c) and the
kernel monitor stack unwinder (src/kern/monitor.c), together with proofs of
the specified properties.

The kernel system calls `sys_ipc_recv`, `sys_ipc_try_send` and `sys_yield`
are not part of the repository sources; they are treated as oracles
(parameters of the embedded functions) and, where a claim depends on their
behaviour, modelled from the spec.
-/

namespace JOS

/-- Modelled from the spec: the numeric value of the kernel error code
`E_IPC_NOT_RECV` ("NotReceiving") is defined in `inc/error.h`, which is not
among the sources; only its identity as a distinguished negative return code
matters, the concrete number is the traditional JOS one. -/
def E_IPC_NOT_RECV : Int := 7

/-- The "no page" sentinel address `(void *) 0xffffffff` used by both
`ipc_recv` and `ipc_send` (src/lib/ipc.c lines 27 and 59). -/
def NO_PAGE : Nat := 0xffffffff

/-- The `env_ipc_*` fields of the current environment's control record that
`ipc_recv` reads after `sys_ipc_recv` returns (src/lib/ipc.c lines 39-42). -/
structure EnvIpcState where
  env_ipc_from : Nat
  env_ipc_value : Nat
  env_ipc_perm : Nat
deriving DecidableEq, Repr

/-- Conversion of a C `uint32_t` value to the `int32_t` value produced by
`return env->env_ipc_value;` in `ipc_recv` (the function's return type is
`int32_t`): reduction mod 2^32, then the signed reading of the word. -/
def toInt32 (v : Nat) : Int :=
  if v % 2 ^ 32 < 2 ^ 31 then (v % 2 ^ 32 : Int) else (v % 2 ^ 32 : Int) - 2 ^ 32

/-- Observable outcome of one `ipc_recv` call: the `int32_t` return value,
the sequence of values written through `from_env_store` and through
`perm_store` (empty when the respective pointer is NULL), and the address
argument actually passed to `sys_ipc_recv`. -/
structure RecvResult where
  ret : Int
  from_stores : List Nat
  perm_stores : List Nat
  dstvaArg : Nat
deriving DecidableEq, Repr

/-- The page-address argument actually passed to the system call by both
`ipc_recv` and `ipc_send`: the sentinel when the page pointer is NULL
(`if (pg == NULL)` branches, src/lib/ipc.c lines 26-29 and 58-61), the
pointer itself otherwise. -/
def pageArgOf : Option Nat → Nat
  | none => NO_PAGE
  | some a => a

/-- Embedding of `ipc_recv` (src/lib/ipc.c lines 22-43).

`from_null` / `perm_null` state whether `from_env_store` / `perm_store` are
NULL; `pg = none` is a NULL page pointer.  The kernel call `sys_ipc_recv`
is an oracle mapping the destination address argument to its `int` return
value together with the `env_ipc_*` fields of the current environment as
observed after the call. -/
def ipc_recv (from_null : Bool) (pg : Option Nat) (perm_null : Bool)
    (sys_ipc_recv : Nat → Int × EnvIpcState) : RecvResult :=
  -- if (pg == NULL) r = sys_ipc_recv((void *) 0xffffffff); else r = sys_ipc_recv(pg);
  if (sys_ipc_recv (pageArgOf pg)).1 < 0 then
    -- if (r < 0) { *from_env_store = 0; *perm_store = 0; return r; }
    { ret := (sys_ipc_recv (pageArgOf pg)).1
      from_stores := if from_null then [] else [0]
      perm_stores := if perm_null then [] else [0]
      dstvaArg := pageArgOf pg }
  else
    -- *from_env_store = env->env_ipc_from; *perm_store = env->env_ipc_perm;
    -- return env->env_ipc_value;
    { ret := toInt32 (sys_ipc_recv (pageArgOf pg)).2.env_ipc_value
      from_stores := if from_null then []
        else [(sys_ipc_recv (pageArgOf pg)).2.env_ipc_from]
      perm_stores := if perm_null then []
        else [(sys_ipc_recv (pageArgOf pg)).2.env_ipc_perm]
      dstvaArg := pageArgOf pg }

/-- Observable outcome of one `ipc_send` call: how many `sys_ipc_try_send`
attempts and how many `sys_yield` calls were made, the page address and
permission passed to every attempt, whether `panic` was reached, and the
final `sys_ipc_try_send` result. -/
structure SendResult where
  attempts : Nat
  yields : Nat
  pageArg : Nat
  permArg : Nat
  panicked : Bool
  finalR : Int
deriving DecidableEq, Repr

/-- The do-while loop of `ipc_send` (src/lib/ipc.c lines 57-63).  `rs k` is
the result of the k-th `sys_ipc_try_send` call (an oracle); each loop
iteration performs exactly one `sys_ipc_try_send` and then exactly one
`sys_yield`, so attempts and yields advance in lockstep: starting at attempt
index `k`, a result `some (n, r)` means the loop exited after attempt `n - 1`
with result `r`, having made `n - k` attempts and `n - k` yields.  `fuel`
bounds the number of iterations so the function is total; `none` means the
bound was exhausted while every attempt kept returning `-E_IPC_NOT_RECV`. -/
def ipc_send_loop (rs : Nat → Int) (k : Nat) (fuel : Nat) : Option (Nat × Int) :=
  match fuel with
  | 0 => none
  | Nat.succ fuel =>
    -- r = sys_ipc_try_send(to_env, val, pgArg, perm);
    -- sys_yield();        (unconditionally, before the while-condition test)
    if rs k = -E_IPC_NOT_RECV then ipc_send_loop rs (k + 1) fuel
    else some (k + 1, rs k)

/-- Embedding of `ipc_send` (src/lib/ipc.c lines 53-67).  The loop makes
`sys_ipc_try_send` attempts, all with the same page argument (the sentinel
`0xffffffff` when `pg` is NULL, `pg` itself otherwise) and the caller's
`perm`; after the loop, `if (r < 0) panic(...)`. -/
def ipc_send (to_env val : Nat) (pg : Option Nat) (perm : Nat)
    (rs : Nat → Int) (fuel : Nat) : Option SendResult :=
  -- sys_ipc_try_send(to_env, val, (void *) 0xffffffff, perm)  when pg == NULL,
  -- sys_ipc_try_send(to_env, val, pg, perm)                   otherwise
  match ipc_send_loop rs 0 fuel with
  | none => none
  | some (n, r) =>
    some { attempts := n
           yields := n
           pageArg := pageArgOf pg
           permArg := perm
           panicked := decide (r < 0)
           finalR := r }

/-- Modelled from the spec: the outcome, on the receiver's side, of a
successful kernel transfer (`sys_ipc_try_send` hitting a receiving target,
src §4.2/§6): the sender's identity and value are recorded; if the sender
supplied a real page (non-sentinel source address) and the receiver posted a
non-sentinel destination, the page is mapped there with the requested
permission; otherwise no page is transferred and the granted permission is
forced to zero. -/
structure DeliverOut where
  env_ipc_from : Nat
  env_ipc_value : Nat
  env_ipc_perm : Nat
  pageMapped : Option (Nat × Nat × Nat)
deriving DecidableEq, Repr

/-- Modelled from the spec: kernel delivery for a matched send
(`tryDeliver` succeeding, spec §4.2 "Side effects on success" and §4.1
"perm is forced to zero whenever no page was actually transferred"). -/
def tryDeliver (sender v srcva perm dstva : Nat) : DeliverOut :=
  if srcva ≠ NO_PAGE ∧ dstva ≠ NO_PAGE then
    { env_ipc_from := sender
      env_ipc_value := v
      env_ipc_perm := perm
      pageMapped := some (srcva, dstva, perm) }
  else
    { env_ipc_from := sender
      env_ipc_value := v
      env_ipc_perm := 0
      pageMapped := none }

/-- The `env_ipc_*` fields the receiver observes after a delivery. -/
def DeliverOut.toEnv (d : DeliverOut) : EnvIpcState :=
  { env_ipc_from := d.env_ipc_from
    env_ipc_value := d.env_ipc_value
    env_ipc_perm := d.env_ipc_perm }

/-- Modelled from the spec: a matched handshake between a receiver that has
posted `ipc_recv` (so the sender's very first `sys_ipc_try_send` returns
Success, i.e. 0) and a sender running `ipc_send` (spec §2 control flow and
§8 round-trip property).  Returns the sender's observable outcome, the
kernel delivery outcome, and the receiver's observable outcome. -/
def handshake (Q senderId v : Nat) (sendPg : Option Nat) (sendPerm : Nat)
    (from_null : Bool) (recvPg : Option Nat) (perm_null : Bool) :
    Option (SendResult × DeliverOut × RecvResult) :=
  let recvDstva := pageArgOf recvPg
  match ipc_send Q v sendPg sendPerm (fun _ => 0) 1 with
  | none => none
  | some s =>
    let d := tryDeliver senderId v s.pageArg s.permArg recvDstva
    let r := ipc_recv from_null recvPg perm_null (fun _ => (0, d.toEnv))
    some (s, d, r)

/-- The result record filled by the external debug-info provider
`debuginfo_eip` (consumed by `mon_backtrace`, src/kern/monitor.c line 83). -/
structure Eipdebuginfo where
  eip_file : String
  eip_line : Nat
  eip_fn_name : String
  eip_fn_namelen : Nat
  eip_fn_addr : Nat
deriving DecidableEq, Repr

/-- Unsigned 32-bit subtraction `a - b`, as computed by the C expression
`eip - eip_info.eip_fn_addr` on `unsigned` operands. -/
def sub32 (a b : Nat) : Nat := (a + (2 ^ 32 - b % 2 ^ 32)) % 2 ^ 32

/-- One frame descriptor emitted per iteration of the `mon_backtrace` loop:
the fields of the first printed line (`ebp`, `eip`, the five argument words)
and of the second printed line (`file:line: function+offset`, with the
function name truncated to `eip_fn_namelen` by the `%.*s` format). -/
structure Frame where
  ebp : Nat
  eip : Nat
  args : List Nat
  file : String
  line : Nat
  fn_name : String
  fn_namelen : Nat
  offset : Nat
deriving DecidableEq, Repr

/-- The five argument words read at fixed offsets `ebp + 8 + 4*i`,
`i = 0..4`, regardless of the callee's true arity
(src/kern/monitor.c lines 78-79). -/
def readArgs (mem : Nat → Nat) (ebp : Nat) : List Nat :=
  [mem (ebp + 8), mem (ebp + 12), mem (ebp + 16), mem (ebp + 20), mem (ebp + 24)]

/-- The frame descriptor built by one iteration of the `mon_backtrace` loop
at frame pointer `ebp` (src/kern/monitor.c lines 76-89): the return address
is read at `ebp + 4`, the debug-info provider is queried with it, and the
displayed offset is the unsigned difference `eip - eip_info.eip_fn_addr`. -/
def mkFrame (mem : Nat → Nat) (resolve : Nat → Eipdebuginfo) (ebp : Nat) : Frame :=
  let eip := mem (ebp + 4)
  let info := resolve eip
  { ebp := ebp
    eip := eip
    args := readArgs mem ebp
    file := info.eip_file
    line := info.eip_line
    fn_name := info.eip_fn_name
    fn_namelen := info.eip_fn_namelen
    offset := sub32 eip info.eip_fn_addr }

/-- Embedding of the `mon_backtrace` loop (src/kern/monitor.c lines 75-93):
starting from frame pointer `ebp` over stack memory `mem` (word read at a
byte address), while `ebp != 0` it emits one frame descriptor and advances
to the caller's frame pointer `*ebp`; it stops exactly when the frame
pointer equals zero.  `fuel` bounds the number of iterations so the
function is total; `none` means the frame-pointer chain did not reach the
zero sentinel within `fuel` frames. -/
def mon_backtrace (mem : Nat → Nat) (resolve : Nat → Eipdebuginfo)
    (ebp : Nat) (fuel : Nat) : Option (List Frame) :=
  if ebp = 0 then some []        -- while (ebp != 0) exits
  else
    match fuel with
    | 0 => none
    | Nat.succ fuel =>
      match mon_backtrace mem resolve (mem ebp) fuel with
      | none => none
      | some rest => some (mkFrame mem resolve ebp :: rest)

/-- A synthetic depth-3 stack: frame pointers 4096 → 8192 → 12288 → 0,
every other word equal to its own address. -/
def mem3 : Nat → Nat := fun a =>
  if a = 4096 then 8192
  else if a = 8192 then 12288
  else if a = 12288 then 0
  else a

/-- A constant debug-info provider for the synthetic stack. -/
def resolve3 : Nat → Eipdebuginfo := fun _ =>
  { eip_file := "kern/init.c"
    eip_line := 10
    eip_fn_name := "test_backtrace"
    eip_fn_namelen := 14
    eip_fn_addr := 4000 }

/-! ### Lemmas about the `ipc_send` retry loop -/

/-- If the first `N` attempts return NotReceiving and attempt `N` does not,
the loop exits right after attempt `N` (0-based), for any sufficient fuel. -/
lemma ipc_send_loop_exits (rs : Nat → Int) (N : Nat)
    (h1 : ∀ k, k < N → rs k = -E_IPC_NOT_RECV) (h2 : rs N ≠ -E_IPC_NOT_RECV) :
    ∀ fuel k, k ≤ N → N < k + fuel →
      ipc_send_loop rs k fuel = some (N + 1, rs N) := by
  intro fuel
  induction fuel with
  | zero => intro k hk hlt; omega
  | succ fuel ih =>
    intro k hk hlt
    rcases Nat.lt_or_ge k N with hklt | hkge
    · simp only [ipc_send_loop, h1 k hklt, if_pos rfl]
      exact ih (k + 1) hklt (by omega)
    · have hkN : k = N := Nat.le_antisymm hk hkge
      subst hkN
      simp only [ipc_send_loop, if_neg h2]

/-- Inversion: a terminating run of the loop made between 1 and `fuel`
attempts, its final result is the result of the last attempt and is not
NotReceiving, and every earlier attempt returned NotReceiving. -/
lemma ipc_send_loop_inv (rs : Nat → Int) :
    ∀ fuel k n r, ipc_send_loop rs k fuel = some (n, r) →
      k < n ∧ n ≤ k + fuel ∧ r = rs (n - 1) ∧ r ≠ -E_IPC_NOT_RECV ∧
      ∀ j, k ≤ j → j + 1 < n → rs j = -E_IPC_NOT_RECV := by
  intro fuel
  induction fuel with
  | zero => intro k n r h; simp [ipc_send_loop] at h
  | succ fuel ih =>
    intro k n r h
    simp only [ipc_send_loop] at h
    by_cases hc : rs k = -E_IPC_NOT_RECV
    · rw [if_pos hc] at h
      obtain ⟨ha, hb, hr, hne, hall⟩ := ih (k + 1) n r h
      refine ⟨by omega, by omega, hr, hne, ?_⟩
      intro j hj hjn
      rcases Nat.eq_or_lt_of_le hj with hjk | hjk
      · rw [← hjk]; exact hc
      · exact hall j hjk hjn
    · rw [if_neg hc] at h
      obtain ⟨hn, hrr⟩ := Prod.mk.injEq .. ▸ Option.some.inj h
      refine ⟨by omega, by omega, ?_, ?_, ?_⟩
      · rw [← hrr, ← hn]; simp
      · rw [← hrr]; exact hc
      · intro j hj hjn; omega

/-- Inversion for `ipc_send` itself: a normal termination came from a
terminating loop run, and the result record's fields are determined by it. -/
lemma ipc_send_inv (to_env val : Nat) (pg : Option Nat) (perm : Nat)
    (rs : Nat → Int) (fuel : Nat) (res : SendResult)
    (h : ipc_send to_env val pg perm rs fuel = some res) :
    ∃ n r, ipc_send_loop rs 0 fuel = some (n, r) ∧
      res = { attempts := n, yields := n, pageArg := pageArgOf pg
              permArg := perm, panicked := decide (r < 0), finalR := r } := by
  unfold ipc_send at h
  cases hl : ipc_send_loop rs 0 fuel with
  | none => rw [hl] at h; simp at h
  | some p =>
    obtain ⟨n, r⟩ := p
    rw [hl] at h
    exact ⟨n, r, rfl, (Option.some.inj h).symm⟩

/-! ### Claim theorems: the send retry loop -/

/-- C1 counterexample: take N = 0, i.e. `sys_ipc_try_send` succeeds on the
very first call.  The claim says `ipc_send` then invokes `sys_yield` exactly
0 times, but the code yields once after every attempt — the do-while body
runs `sys_yield()` before testing the loop condition — so one yield occurs. -/
theorem ipc_send_yield_count_cex :
    (ipc_send 1 5 none 0 (fun _ => 0) 1).map SendResult.yields = some 1 ∧
    (ipc_send 1 5 none 0 (fun _ => 0) 1).map SendResult.yields ≠ some 0 := by
  constructor <;> decide

/-- C1 (amended): if `sys_ipc_try_send` returns NotReceiving on exactly the
first N calls and Success (0) on call N+1, then a single `ipc_send` makes
exactly N+1 delivery attempts, invokes `sys_yield` exactly N+1 times (once
after every attempt, including the successful final one), and returns
normally without further delivery attempts. -/
theorem ipc_send_retry_termination (to_env val : Nat) (pg : Option Nat) (perm : Nat)
    (rs : Nat → Int) (N fuel : Nat)
    (h1 : ∀ k, k < N → rs k = -E_IPC_NOT_RECV) (h2 : rs N = 0)
    (hfuel : N < fuel) :
    ∃ res, ipc_send to_env val pg perm rs fuel = some res ∧
      res.attempts = N + 1 ∧ res.yields = N + 1 ∧ res.panicked = false := by
  have hne : rs N ≠ -E_IPC_NOT_RECV := by rw [h2]; decide
  have hloop := ipc_send_loop_exits rs N h1 hne fuel 0 (Nat.zero_le N) (by omega)
  refine ⟨{ attempts := N + 1, yields := N + 1, pageArg := pageArgOf pg
            permArg := perm, panicked := false, finalR := 0 }, ?_, rfl, rfl, rfl⟩
  unfold ipc_send
  rw [hloop, h2]
  rfl

/-- Witness for C1 (amended) at N = 2: two NotReceiving results then
Success give exactly 3 attempts and 3 yields. -/
theorem ipc_send_retry_termination_witness :
    ∃ res, ipc_send 1 5 none 0
        (fun k => if k < 2 then -E_IPC_NOT_RECV else 0) 3 = some res ∧
      res.attempts = 3 ∧ res.yields = 3 ∧ res.panicked = false :=
  ipc_send_retry_termination 1 5 none 0 _ 2 3
    (by decide) (by decide) (by decide)

/-- C2: `ipc_send` returns normally iff the final delivery attempt returned
a non-negative result; the final result is never NotReceiving (NotReceiving
always drives another attempt — every non-final attempt returned exactly
NotReceiving); any other negative final result reaches `panic` instead of a
normal return. -/
theorem ipc_send_error_handling (to_env val : Nat) (pg : Option Nat) (perm : Nat)
    (rs : Nat → Int) (fuel : Nat) (res : SendResult)
    (h : ipc_send to_env val pg perm rs fuel = some res) :
    (res.panicked = false ↔ 0 ≤ res.finalR) ∧
    res.finalR ≠ -E_IPC_NOT_RECV ∧
    res.finalR = rs (res.attempts - 1) ∧
    (∀ j, j + 1 < res.attempts → rs j = -E_IPC_NOT_RECV) := by
  obtain ⟨n, r, hl, hres⟩ := ipc_send_inv to_env val pg perm rs fuel res h
  obtain ⟨hk, hub, hr, hne, hall⟩ := ipc_send_loop_inv rs fuel 0 n r hl
  subst hres
  refine ⟨?_, hne, hr, ?_⟩
  · simp [decide_eq_false_iff_not, not_lt]
  · intro j hj
    exact hall j (Nat.zero_le j) hj

/-- Witness for C2: a fatal error (-4) on the second attempt after one
NotReceiving: `ipc_send` panics, the final result is -4, and the first
attempt returned NotReceiving. -/
theorem ipc_send_error_handling_witness :
    let rs : Nat → Int := fun k => if k = 0 then -E_IPC_NOT_RECV else -4
    let res : SendResult :=
      { attempts := 2, yields := 2, pageArg := NO_PAGE
        permArg := 0, panicked := true, finalR := -4 }
    (res.panicked = false ↔ 0 ≤ res.finalR) ∧
    res.finalR ≠ -E_IPC_NOT_RECV ∧
    res.finalR = rs (res.attempts - 1) ∧
    (∀ j, j + 1 < res.attempts → rs j = -E_IPC_NOT_RECV) :=
  ipc_send_error_handling 1 5 none 0
    (fun k => if k = 0 then -E_IPC_NOT_RECV else -4) 2
    { attempts := 2, yields := 2, pageArg := NO_PAGE
      permArg := 0, panicked := true, finalR := -4 }
    (by decide)

/-- C9: attempts and yields are always equal in number (`sys_yield` runs
exactly once after every `sys_ipc_try_send`, including the final one), and
at least one of each occurs per terminating `ipc_send` call. -/
theorem ipc_send_yields_eq_attempts (to_env val : Nat) (pg : Option Nat) (perm : Nat)
    (rs : Nat → Int) (fuel : Nat) (res : SendResult)
    (h : ipc_send to_env val pg perm rs fuel = some res) :
    res.yields = res.attempts ∧ 1 ≤ res.attempts ∧ 1 ≤ res.yields := by
  obtain ⟨n, r, hl, hres⟩ := ipc_send_inv to_env val pg perm rs fuel res h
  obtain ⟨hk, -⟩ := ipc_send_loop_inv rs fuel 0 n r hl
  subst hres
  exact ⟨rfl, hk, hk⟩

/-- Witness for C9: an immediately successful send still yields once. -/
theorem ipc_send_yields_eq_attempts_witness :
    let res : SendResult :=
      { attempts := 1, yields := 1, pageArg := 4096
        permArg := 7, panicked := false, finalR := 0 }
    res.yields = res.attempts ∧ 1 ≤ res.attempts ∧ 1 ≤ res.yields :=
  ipc_send_yields_eq_attempts 3 9 (some 4096) 7 (fun _ => 0) 1 _ (by decide)

/-! ### Claim theorems: `ipc_recv` -/

/-- C3: when `sys_ipc_recv` fails, `ipc_recv` stores 0 through each
non-null out-parameter and returns the error code; when it succeeds,
`ipc_recv` returns the delivered value `env_ipc_value` (as the `int32_t`
reading of the word) and stores `env_ipc_from` and `env_ipc_perm` through
the non-null out-parameters; and the delivered permission is zero whenever
the kernel actually transferred no page. -/
theorem ipc_recv_postconditions (from_null perm_null : Bool) (pg : Option Nat)
    (sys : Nat → Int × EnvIpcState) :
    ((sys (pageArgOf pg)).1 < 0 →
      (ipc_recv from_null pg perm_null sys).ret = (sys (pageArgOf pg)).1 ∧
      (from_null = false → (ipc_recv from_null pg perm_null sys).from_stores = [0]) ∧
      (perm_null = false → (ipc_recv from_null pg perm_null sys).perm_stores = [0])) ∧
    (0 ≤ (sys (pageArgOf pg)).1 →
      (ipc_recv from_null pg perm_null sys).ret =
        toInt32 (sys (pageArgOf pg)).2.env_ipc_value ∧
      (from_null = false → (ipc_recv from_null pg perm_null sys).from_stores =
        [(sys (pageArgOf pg)).2.env_ipc_from]) ∧
      (perm_null = false → (ipc_recv from_null pg perm_null sys).perm_stores =
        [(sys (pageArgOf pg)).2.env_ipc_perm])) ∧
    (∀ sender v srcva perm dstva,
      (tryDeliver sender v srcva perm dstva).pageMapped = none →
      (tryDeliver sender v srcva perm dstva).env_ipc_perm = 0) := by
  refine ⟨?_, ?_, ?_⟩
  · intro hneg
    unfold ipc_recv
    rw [if_pos hneg]
    refine ⟨rfl, ?_, ?_⟩ <;> (intro hn; rw [hn]; rfl)
  · intro hpos
    unfold ipc_recv
    rw [if_neg (not_lt.mpr hpos)]
    refine ⟨rfl, ?_, ?_⟩ <;> (intro hn; rw [hn]; rfl)
  · intro sender v srcva perm dstva hmap
    unfold tryDeliver at hmap ⊢
    by_cases hc : srcva ≠ NO_PAGE ∧ dstva ≠ NO_PAGE
    · rw [if_pos hc] at hmap; simp at hmap
    · rw [if_neg hc]

/-- Witness for C3 on the failure path: with `sys_ipc_recv` returning -3,
`ipc_recv` returns -3 and stores 0 through both out-parameters. -/
theorem ipc_recv_postconditions_witness :
    (ipc_recv false none false (fun _ => (-3, ⟨7, 8, 9⟩))).ret = -3 ∧
    (ipc_recv false none false (fun _ => (-3, ⟨7, 8, 9⟩))).from_stores = [0] ∧
    (ipc_recv false none false (fun _ => (-3, ⟨7, 8, 9⟩))).perm_stores = [0] := by
  have h := (ipc_recv_postconditions false false none
    (fun _ => (-3, ⟨7, 8, 9⟩))).1 (by decide)
  exact ⟨h.1, h.2.1 rfl, h.2.2 rfl⟩

/-- C8: both functions encode the NULL page pointer as the sentinel address
0xffffffff: `ipc_recv` passes `(void *) 0xffffffff` to `sys_ipc_recv` when
`pg` is NULL and `pg` unchanged otherwise, and `ipc_send` passes the same
sentinel (or the unchanged pointer) and the caller's unchanged `perm` to
every `sys_ipc_try_send`. -/
theorem ipc_no_page_sentinel (from_null perm_null : Bool)
    (sys : Nat → Int × EnvIpcState) (a to_env val perm : Nat)
    (rs : Nat → Int) (fuel : Nat) :
    (ipc_recv from_null none perm_null sys).dstvaArg = 0xffffffff ∧
    (ipc_recv from_null (some a) perm_null sys).dstvaArg = a ∧
    (∀ res, ipc_send to_env val none perm rs fuel = some res →
      res.pageArg = 0xffffffff ∧ res.permArg = perm) ∧
    (∀ res, ipc_send to_env val (some a) perm rs fuel = some res →
      res.pageArg = a ∧ res.permArg = perm) := by
  refine ⟨?_, ?_, ?_, ?_⟩
  · unfold ipc_recv
    by_cases hr : (sys (pageArgOf (none : Option Nat))).1 < 0
    · rw [if_pos hr]; rfl
    · rw [if_neg hr]; rfl
  · unfold ipc_recv
    by_cases hr : (sys (pageArgOf (some a))).1 < 0
    · rw [if_pos hr]; rfl
    · rw [if_neg hr]; rfl
  · intro res h
    obtain ⟨n, r, -, hres⟩ := ipc_send_inv to_env val none perm rs fuel res h
    subst hres; exact ⟨rfl, rfl⟩
  · intro res h
    obtain ⟨n, r, -, hres⟩ := ipc_send_inv to_env val (some a) perm rs fuel res h
    subst hres; exact ⟨rfl, rfl⟩

/-- Witness for C8 at concrete arguments. -/
theorem ipc_no_page_sentinel_witness :
    (ipc_recv false none false (fun _ => (0, ⟨1, 2, 3⟩))).dstvaArg = 0xffffffff ∧
    (ipc_recv false (some 4096) false (fun _ => (0, ⟨1, 2, 3⟩))).dstvaArg = 4096 ∧
    ({ attempts := 1, yields := 1, pageArg := 0xffffffff, permArg := 2
       panicked := false, finalR := 0 } : SendResult).pageArg = 0xffffffff ∧
    ({ attempts := 1, yields := 1, pageArg := 4096, permArg := 2
       panicked := false, finalR := 0 } : SendResult).pageArg = 4096 := by
  have h := ipc_no_page_sentinel false false (fun _ => (0, ⟨1, 2, 3⟩))
    4096 1 5 2 (fun _ => 0) 1
  exact ⟨h.1, h.2.1, (h.2.2.1 _ (by decide)).1, (h.2.2.2 _ (by decide)).1⟩

/-- C10: `ipc_recv` performs no store through a NULL out-parameter and
exactly one store through each non-null out-parameter, on the failure path
and on the success path alike, each pointer independently. -/
theorem ipc_recv_store_discipline (from_null perm_null : Bool) (pg : Option Nat)
    (sys : Nat → Int × EnvIpcState) :
    (from_null = true → (ipc_recv from_null pg perm_null sys).from_stores = []) ∧
    (from_null = false →
      (ipc_recv from_null pg perm_null sys).from_stores.length = 1) ∧
    (perm_null = true → (ipc_recv from_null pg perm_null sys).perm_stores = []) ∧
    (perm_null = false →
      (ipc_recv from_null pg perm_null sys).perm_stores.length = 1) := by
  unfold ipc_recv
  by_cases hr : (sys (pageArgOf pg)).1 < 0 <;>
    [rw [if_pos hr]; rw [if_neg hr]] <;>
    refine ⟨?_, ?_, ?_, ?_⟩ <;> (intro hn; subst hn; rfl)

/-- Witness for C10: non-null `from_env_store`, NULL `perm_store`. -/
theorem ipc_recv_store_discipline_witness :
    (ipc_recv false none true (fun _ => (0, ⟨1, 2, 3⟩))).from_stores.length = 1 ∧
    (ipc_recv false none true (fun _ => (0, ⟨1, 2, 3⟩))).perm_stores = [] := by
  have h := ipc_recv_store_discipline false true none (fun _ => (0, ⟨1, 2, 3⟩))
  exact ⟨h.2.1 rfl, h.2.2.1 rfl⟩

/-! ### Claim theorems: matched send/receive pairs -/

/-- `ipc_recv` against a succeeding `sys_ipc_recv` oracle: the success
branch is taken and the `env_ipc_*` fields flow to the outputs. -/
lemma ipc_recv_success (from_null : Bool) (pg : Option Nat) (perm_null : Bool)
    (env : EnvIpcState) :
    ipc_recv from_null pg perm_null (fun _ => (0, env)) =
      { ret := toInt32 env.env_ipc_value
        from_stores := if from_null then [] else [env.env_ipc_from]
        perm_stores := if perm_null then [] else [env.env_ipc_perm]
        dstvaArg := pageArgOf pg } := by
  unfold ipc_recv
  rfl

/-- `tryDeliver` when the receiver posted the "no page" sentinel: no page
is transferred and the granted permission is forced to zero. -/
lemma tryDeliver_no_dest (sender v srcva perm : Nat) :
    tryDeliver sender v srcva perm NO_PAGE =
      { env_ipc_from := sender, env_ipc_value := v, env_ipc_perm := 0
        pageMapped := none } := by
  unfold tryDeliver
  rw [if_neg]
  intro h
  exact h.2 rfl

/-- C4: if the receiver posted `ipc_recv` with a NULL page pointer (the
"reject any page" sentinel), a subsequent send of a non-null page with any
(e.g. read-write) permission still reports perm 0 through `perm_store`, and
no page is mapped in the receiver's address space. -/
theorem ipc_page_rejected (Q senderId v p sendPerm : Nat) :
    ∃ s d r, handshake Q senderId v (some p) sendPerm false none false =
        some (s, d, r) ∧
      r.perm_stores = [0] ∧ d.pageMapped = none := by
  refine ⟨_, _, _, rfl, ?_, ?_⟩
  · show (ipc_recv false none false
      (fun _ => (0, (tryDeliver senderId v _ _ (pageArgOf none)).toEnv))).perm_stores = [0]
    rw [ipc_recv_success, show pageArgOf none = NO_PAGE from rfl, tryDeliver_no_dest]
    rfl
  · show (tryDeliver senderId v _ _ (pageArgOf none)).pageMapped = none
    rw [show pageArgOf none = NO_PAGE from rfl, tryDeliver_no_dest]

/-- C5: round trip — `ipc_send(Q, v, NULL, 0)` matched with the target's
`ipc_recv(&from, NULL, &perm)` makes `ipc_recv` return the 32-bit value v
(as the `int32_t` reading of the word, so its unsigned residue is exactly
v), store the sender's id in `from`, and store 0 in `perm`. -/
theorem ipc_round_trip (Q senderId v : Nat) (hv : v < 2 ^ 32) :
    ∃ s d r, handshake Q senderId v none 0 false none false = some (s, d, r) ∧
      r.ret = toInt32 v ∧ r.ret % (2 ^ 32 : Int) = (v : Int) ∧
      r.from_stores = [senderId] ∧ r.perm_stores = [0] := by
  refine ⟨_, _, _, rfl, ?_⟩
  show (ipc_recv false none false
    (fun _ => (0, (tryDeliver senderId v _ _ (pageArgOf none)).toEnv))).ret = toInt32 v ∧ _
  rw [ipc_recv_success, show pageArgOf none = NO_PAGE from rfl, tryDeliver_no_dest]
  refine ⟨rfl, ?_, rfl, rfl⟩
  show toInt32 v % (2 ^ 32 : Int) = (v : Int)
  unfold toInt32
  rw [Nat.mod_eq_of_lt hv]
  split <;> omega

/-- Witness for C5 at v = 42. -/
theorem ipc_round_trip_witness :
    ∃ s d r, handshake 1 2 42 none 0 false none false = some (s, d, r) ∧
      r.ret = toInt32 42 ∧ r.ret % (2 ^ 32 : Int) = (42 : Int) ∧
      r.from_stores = [2] ∧ r.perm_stores = [0] :=
  ipc_round_trip 1 2 42 (by decide)

/-! ### Lemmas about the stack unwinder -/

/-- Unsigned 32-bit subtraction agrees with ordinary subtraction when the
minuend is a 32-bit word at least as large as the subtrahend. -/
lemma sub32_of_le (a b : Nat) (hle : b ≤ a) (hlt : a < 2 ^ 32) :
    sub32 a b = a - b := by
  unfold sub32
  rw [Nat.mod_eq_of_lt (lt_of_le_of_lt hle hlt)]
  have h32 : (2 : Nat) ^ 32 = 4294967296 := by norm_num
  rw [h32] at hlt ⊢
  omega

/-- The unwinder at the zero frame pointer: the walk stops at once. -/
lemma mon_backtrace_ebp_zero (mem : Nat → Nat) (resolve : Nat → Eipdebuginfo)
    (fuel : Nat) :
    mon_backtrace mem resolve 0 fuel = some [] := by
  unfold mon_backtrace
  rw [if_pos rfl]

/-- One unfolding of the unwinder at a nonzero frame pointer. -/
lemma mon_backtrace_succ (mem : Nat → Nat) (resolve : Nat → Eipdebuginfo)
    (ebp fuel : Nat) (h : ebp ≠ 0) :
    mon_backtrace mem resolve ebp (fuel + 1) =
      match mon_backtrace mem resolve (mem ebp) fuel with
      | none => none
      | some rest => some (mkFrame mem resolve ebp :: rest) := by
  conv_lhs => unfold mon_backtrace
  rw [if_neg h]

/-! ### Claim theorems: the stack unwinder -/

/-- C6: if the frame-pointer chain from `ebp` reaches the zero sentinel
after exactly `n` frames, then for every sufficient fuel `mon_backtrace`
terminates with the same list of exactly `n` frame descriptors — one per
activation, the k-th built at the k-th frame pointer of the chain
(innermost activation first) — so re-invoking it over the same stack
contents reproduces the identical sequence. -/
theorem mon_backtrace_terminates (mem : Nat → Nat) (resolve : Nat → Eipdebuginfo)
    (ebp n : Nat) (h1 : ∀ k, k < n → mem^[k] ebp ≠ 0) (h2 : mem^[n] ebp = 0) :
    ∀ fuel, n ≤ fuel →
      mon_backtrace mem resolve ebp fuel =
        some ((List.range n).map fun k => mkFrame mem resolve (mem^[k] ebp)) ∧
      ((List.range n).map fun k => mkFrame mem resolve (mem^[k] ebp)).length = n := by
  induction n generalizing ebp with
  | zero =>
    intro fuel _
    have hz : ebp = 0 := by simpa using h2
    subst hz
    exact ⟨mon_backtrace_ebp_zero mem resolve fuel, rfl⟩
  | succ n ih =>
    intro fuel hfuel
    have hebp : ebp ≠ 0 := by simpa using h1 0 (Nat.succ_pos n)
    obtain ⟨fuel, rfl⟩ : ∃ f, fuel = f + 1 := ⟨fuel - 1, by omega⟩
    have hc1 : ∀ k, k < n → mem^[k] (mem ebp) ≠ 0 := by
      intro k hk
      have := h1 (k + 1) (by omega)
      rwa [Function.iterate_succ_apply] at this
    have hc2 : mem^[n] (mem ebp) = 0 := by
      rw [← Function.iterate_succ_apply]
      exact h2
    have hrec := (ih (mem ebp) hc1 hc2 fuel (by omega)).1
    have hlist : ((List.range (n + 1)).map fun k => mkFrame mem resolve (mem^[k] ebp)) =
        mkFrame mem resolve ebp ::
          ((List.range n).map fun k => mkFrame mem resolve (mem^[k] (mem ebp))) := by
      rw [List.range_succ_eq_map, List.map_cons, List.map_map]
      refine congrArg (mkFrame mem resolve (mem^[0] ebp) :: ·) ?_
      refine List.map_congr_left ?_
      intro k _
      simp [Function.comp, Function.iterate_succ_apply]
    refine ⟨?_, by simp⟩
    rw [mon_backtrace_succ mem resolve ebp fuel hebp, hrec, hlist]

/-- Witness for C6: the synthetic depth-3 stack 4096 → 8192 → 12288 → 0
yields exactly 3 descriptors and terminates. -/
theorem mon_backtrace_terminates_witness :
    mon_backtrace mem3 resolve3 4096 3 =
      some ((List.range 3).map fun k => mkFrame mem3 resolve3 (mem3^[k] 4096)) ∧
    ((List.range 3).map fun k => mkFrame mem3 resolve3 (mem3^[k] 4096)).length = 3 :=
  mon_backtrace_terminates mem3 resolve3 4096 3 (by decide) (by decide) 3 (by decide)

/-- C7: one unwinder step at a nonzero frame pointer `ebp` reads the return
address at `ebp+4` and exactly the five words at `ebp+8 .. ebp+24` as
arguments, emits a frame descriptor carrying the frame pointer, return
address and those five words together with the resolved `file`, `line`,
`function` (truncated to the reported name length) and
`offset = returnAddress - functionStart` (unsigned 32-bit; ordinary
subtraction whenever no wrap occurs), and advances the walk from the
caller's frame pointer loaded from `*ebp`. -/
theorem mon_backtrace_step (mem : Nat → Nat) (resolve : Nat → Eipdebuginfo)
    (ebp fuel : Nat) (rest : List Frame) (h : ebp ≠ 0)
    (hrest : mon_backtrace mem resolve (mem ebp) fuel = some rest) :
    mon_backtrace mem resolve ebp (fuel + 1) =
      some (mkFrame mem resolve ebp :: rest) ∧
    (mkFrame mem resolve ebp).ebp = ebp ∧
    (mkFrame mem resolve ebp).eip = mem (ebp + 4) ∧
    (mkFrame mem resolve ebp).args =
      [mem (ebp + 8), mem (ebp + 12), mem (ebp + 16), mem (ebp + 20), mem (ebp + 24)] ∧
    (mkFrame mem resolve ebp).file = (resolve (mem (ebp + 4))).eip_file ∧
    (mkFrame mem resolve ebp).line = (resolve (mem (ebp + 4))).eip_line ∧
    (mkFrame mem resolve ebp).fn_name = (resolve (mem (ebp + 4))).eip_fn_name ∧
    (mkFrame mem resolve ebp).fn_namelen = (resolve (mem (ebp + 4))).eip_fn_namelen ∧
    (mkFrame mem resolve ebp).offset =
      sub32 (mem (ebp + 4)) (resolve (mem (ebp + 4))).eip_fn_addr ∧
    ((resolve (mem (ebp + 4))).eip_fn_addr ≤ mem (ebp + 4) → mem (ebp + 4) < 2 ^ 32 →
      (mkFrame mem resolve ebp).offset =
        mem (ebp + 4) - (resolve (mem (ebp + 4))).eip_fn_addr) := by
  refine ⟨?_, rfl, rfl, rfl, rfl, rfl, rfl, rfl, rfl, ?_⟩
  · rw [mon_backtrace_succ mem resolve ebp fuel h, hrest]
  · intro hle hlt
    exact sub32_of_le _ _ hle hlt

/-- Witness for C7 at the innermost frame of the synthetic stack: the step
equation and the no-wrap offset 4100 - 4000 = 100. -/
theorem mon_backtrace_step_witness :
    mon_backtrace mem3 resolve3 4096 3 =
      some (mkFrame mem3 resolve3 4096 ::
        [mkFrame mem3 resolve3 8192, mkFrame mem3 resolve3 12288]) ∧
    (mkFrame mem3 resolve3 4096).offset = 100 := by
  obtain ⟨hstep, -, -, -, -, -, -, -, -, hoff⟩ :=
    mon_backtrace_step mem3 resolve3 4096 2
      [mkFrame mem3 resolve3 8192, mkFrame mem3 resolve3 12288]
      (by decide) (by rfl)
  refine ⟨hstep, ?_⟩
  rw [hoff (by norm_num [resolve3, mem3]) (by norm_num [mem3])]
  decide

end JOS
